import Mathlib

/-!
Shallow embedding of `src/server/main.py` (Apigee-Authorization-Air-Quality-MCP).

The three public MCP tool operations are modelled as pure functions over
explicit collaborator responses:

* HTTP responses from the geocoding provider and the air-quality provider are
  inputs (`GeoFetch`, `Except Nat (List Location)`, a per-sensor fetch
  function); an `Except.error` with a `Nat` payload models an
  `httpx.HTTPStatusError` carrying the upstream status code.
* Exceptions that Python code raises and that a given `try` block does not
  catch are modelled by the `Except.error` branch of the embedded function
  (`Except String _`); the outermost `except Exception` handler of
  `get_air_quality` is the `match` in `get_air_quality` converting body errors
  to sentinel results.
* `datetime.fromisoformat` (a library call, not repository code) is a
  parameter `parseIso : String → Option Int` mapping a timestamp string to a
  UTC instant in seconds, `none` modelling the `ValueError` it raises on a
  non-ISO string.  `datetime.now(timezone.utc)` is a parameter `now : Int`.
* `random.shuffle` is a parameter `shuffle : List Location → List Location`.
* Numeric JSON values (coordinates, pm25 readings) are carried as `Int`; the
  code never computes with them, it only passes them through or substitutes
  the sentinels 0 and -1, so the carrier type is irrelevant.
-/

namespace AirQualityMCP

/-! ## Geocoding side (placename-to-latlon, placenames-to-latlons) -/

/-- The `position` object of one geocode match: `{"lat": .., "lon": ..}`. -/
structure GeoPosition where
  lat : Int
  lon : Int
deriving DecidableEq

/-- One element of the provider's `results` array.  The `position` key may be
absent (`none`); accessing it then raises a `KeyError` in the Python code. -/
structure GeoResult where
  position : Option GeoPosition
deriving DecidableEq

/-- The outcome of `client.get(...)` + `response.raise_for_status()` +
`response.json()` for one geocode call: either an `httpx.HTTPStatusError`
with the upstream status code, or the parsed body's `results` array (a
missing/null/empty `results` is collapsed to `[]`, which is exactly how the
code's `if not results:` treats all three). -/
inductive GeoFetch where
  | httpError (code : Nat)
  | ok (results : List GeoResult)
deriving DecidableEq

/-- The `GeocodePlacenameResponse` pydantic model. -/
structure GeocodePlacenameResponse where
  latitude : Int
  longitude : Int
  placename : String
  message : String
deriving DecidableEq

/-- `_geocode_one_placename` from `main.py` lines 130-165.  The `try` block
catches only `httpx.HTTPStatusError`; any other exception (modelled: the
`KeyError` from `results[0]["position"]` when the first result has no
position) escapes as `Except.error`. -/
def _geocode_one_placename (placename : String) (resp : GeoFetch) :
    Except String GeocodePlacenameResponse :=
  match resp with
  | .httpError code =>
      .ok ⟨0, 0, placename, "upstream error (status code=" ++ toString code ++ ")"⟩
  | .ok results =>
      match results with
      | [] => .ok ⟨0, 0, placename, "error resolving placename"⟩
      | r :: _ =>
          match r.position with
          | none => .error "KeyError: position"
          | some pos => .ok ⟨pos.lat, pos.lon, placename, "ok"⟩

/-- The `placename-to-latlon` tool (`placename_to_latlon`, lines 173-182):
it opens a client and delegates to `_geocode_one_placename`. -/
def placename_to_latlon (placename : String) (resp : GeoFetch) :
    Except String GeocodePlacenameResponse :=
  _geocode_one_placename placename resp

/-- Helper for the batch tool: resolve the names one by one, the item at
batch position `i` receiving collaborator response `resp i`.  `asyncio.gather`
returns the task results positionally, and propagates an exception if any
task raised one, which the monadic error branch models. -/
def resolveBatchFrom (resp : Nat → GeoFetch) :
    Nat → List String → Except String (List GeocodePlacenameResponse)
  | _, [] => .ok []
  | i, p :: rest =>
      match _geocode_one_placename p (resp i) with
      | .error e => .error e
      | .ok r =>
          match resolveBatchFrom resp (i + 1) rest with
          | .error e => .error e
          | .ok rs => .ok (r :: rs)

/-- The `placenames-to-latlons` tool (`placenames_to_latlons`, lines
190-218): one `_geocode_one_placename` per input name, results positional. -/
def placenames_to_latlons (placenames : List String) (resp : Nat → GeoFetch) :
    Except String (List GeocodePlacenameResponse) :=
  resolveBatchFrom resp 0 placenames

/-- `true` iff `_geocode_one_placename` handles this collaborator response
itself (HTTP error, empty results, or a first result that has a position):
exactly the responses on which the Python function returns normally. -/
def handledGeoFetch : GeoFetch → Bool
  | .httpError _ => true
  | .ok [] => true
  | .ok (r :: _) => r.position.isSome

/-! ## Air-quality side (get-air-quality) -/

/-- One element of a location's `sensors` array; `parameter.name` collapsed
to a string. -/
structure Sensor where
  id : Nat
  parameterName : String
deriving DecidableEq

/-- One element of the discovery response's `results` array.
`datetimeLast` is the optional `datetimeLast.utc` string (`none` collapses
"key absent", "null" and "no utc field", which the code's
`(loc.get("datetimeLast") or {}).get("utc")` treats alike). -/
structure Location where
  name : String
  datetimeLast : Option String
  sensors : List Sensor
deriving DecidableEq

/-- One element of a sensor's hourly-measurements `results` array:
`period.datetimeTo.utc` and `value`, each possibly null. -/
structure Measurement where
  periodEndUtc : Option String
  value : Option Int
deriving DecidableEq

/-- The `AirQualityResult` pydantic model. -/
structure AirQualityResult where
  sensor_id : Nat
  placename : String
  timestamp : String
  pm25 : Int
  status : String
deriving DecidableEq

/-- 8 hours in seconds: the freshness window `timedelta(hours=8)`. -/
def eightHoursSecs : Int := 28800

/-- A sentinel result: `sensor_id=0, placename="", timestamp="", pm25=-1`. -/
def sentinelReading (status : String) : AirQualityResult :=
  ⟨0, "", "", -1, status⟩

/-- The freshness part of the filter loop (lines 278-285): skip when the
last-updated string is missing or empty (`if not last_updated_str`), raise
(`Except.error`) when it does not parse (`datetime.fromisoformat` raises
`ValueError`), skip when `last_updated < eight_hours_ago`. -/
def freshnessKeep (parseIso : String → Option Int) (now : Int) (loc : Location) :
    Except String Bool :=
  match loc.datetimeLast with
  | none => .ok false
  | some s =>
      if s = "" then .ok false
      else
        match parseIso s with
        | none => .error ("Invalid isoformat string: " ++ s)
        | some t => .ok (!decide (t < now - eightHoursSecs))

/-- `has_pm25` (lines 288-290): some sensor's `parameter.name` is `"pm25"`. -/
def hasPm25 (loc : Location) : Bool :=
  loc.sensors.any (fun s => s.parameterName == "pm25")

/-- The `suitable_locations` accumulation loop (lines 273-292): keep the
locations that pass the freshness check and expose a pm25 sensor; a parse
failure aborts the whole loop (the exception propagates to the outer
handler). -/
def suitable_locations (parseIso : String → Option Int) (now : Int) :
    List Location → Except String (List Location)
  | [] => .ok []
  | loc :: rest =>
      match freshnessKeep parseIso now loc with
      | .error e => .error e
      | .ok keep =>
          match suitable_locations parseIso now rest with
          | .error e => .error e
          | .ok tail => .ok (if keep && hasPm25 loc then loc :: tail else tail)

/-- A measurement is valid when both `period.datetimeTo.utc` and `value`
are non-null (the guard at lines 351-355). -/
def validMeasurement (m : Measurement) : Bool :=
  m.periodEndUtc.isSome && m.value.isSome

/-- The `last_measurement` scan (lines 349-357): iterate `reversed(results)`
and take the first valid measurement. -/
def last_valid_measurement (results : List Measurement) : Option Measurement :=
  results.reverse.find? validMeasurement

/-- `pm25_sensor` (lines 309-316): the first sensor whose parameter name is
`"pm25"`, or `none`. -/
def find_pm25_sensor (loc : Location) : Option Sensor :=
  loc.sensors.find? (fun s => s.parameterName == "pm25")

/-- One iteration of the selection loop for one station (lines 308-368),
returning the reading it would append, or `none` when the station is skipped
(no pm25 sensor / per-sensor HTTP error, caught at lines 336-340 / empty
measurement list / no valid measurement).  `fetch sensorId` is the outcome of
the per-sensor hourly-measurements call. -/
def extractReading (fetch : Nat → Except Nat (List Measurement)) (loc : Location) :
    Option AirQualityResult :=
  match find_pm25_sensor loc with
  | none => none
  | some sensor =>
      match fetch sensor.id with
      | .error _ => none
      | .ok results =>
          if results.isEmpty then none
          else
            match last_valid_measurement results with
            | none => none
            | some m =>
                some ⟨sensor.id, loc.name, m.periodEndUtc.getD "",
                      m.value.getD 0, "Success."⟩

/-- The selection loop (lines 302-369) over the shuffled suitable locations:
stop once the accumulator holds 3 readings, otherwise try the next station
and append its reading when it yields one. -/
def selectReadings (fetch : Nat → Except Nat (List Measurement)) :
    List Location → List AirQualityResult → List AirQualityResult
  | [], acc => acc
  | loc :: rest, acc =>
      if 3 ≤ acc.length then acc
      else
        match extractReading fetch loc with
        | none => selectReadings fetch rest acc
        | some r => selectReadings fetch rest (acc ++ [r])

/-- The two kinds of exception that can escape the body of `get_air_quality`:
an `httpx.HTTPStatusError` from the discovery call (the per-sensor ones are
caught inside the loop), and any other exception (modelled: the `ValueError`
from `datetime.fromisoformat`). -/
inductive AqError where
  | http (code : Nat)
  | unexpected (msg : String)
deriving DecidableEq

/-- The `try` body of `get_air_quality` (lines 239-369).  `discovery` is the
outcome of the `/v3/locations` call (status-code error or `results` array,
with missing/null/empty collapsed to `[]` as `if not results:` does). -/
def get_air_quality_body (parseIso : String → Option Int) (now : Int)
    (shuffle : List Location → List Location)
    (fetch : Nat → Except Nat (List Measurement))
    (discovery : Except Nat (List Location)) :
    Except AqError (List AirQualityResult) :=
  match discovery with
  | .error code => .error (.http code)
  | .ok results =>
      if results.isEmpty then
        .ok [sentinelReading "Error. No locations found near coordinates."]
      else
        match suitable_locations parseIso now results with
        | .error msg => .error (.unexpected msg)
        | .ok suitable =>
            if suitable.isEmpty then .ok []
            else .ok (selectReadings fetch (shuffle suitable) [])

/-- The `get-air-quality` tool (lines 226-396): the body plus the two
`except` handlers at lines 371-396, each converting to a single sentinel
element. -/
def get_air_quality (parseIso : String → Option Int) (now : Int)
    (shuffle : List Location → List Location)
    (fetch : Nat → Except Nat (List Measurement))
    (discovery : Except Nat (List Location)) : List AirQualityResult :=
  match get_air_quality_body parseIso now shuffle fetch discovery with
  | .ok res => res
  | .error (.http code) => [sentinelReading ("API error: " ++ toString code)]
  | .error (.unexpected msg) =>
      [sentinelReading ("An unexpected error occurred: " ++ msg)]

/-- `true` iff the embedded geocode resolver returns normally (no uncaught
exception) on this placename/response pair. -/
def geocodeReturnsNormally (p : String) (f : GeoFetch) : Bool :=
  match _geocode_one_placename p f with
  | .ok _ => true
  | .error _ => false

/-- The sentinel shape the spec requires of a failing `AirQualityResult`:
`sensor_id = 0`, empty placename/timestamp, `pm25 = -1`, non-empty status. -/
def isSentinelShape (r : AirQualityResult) : Bool :=
  r.sensor_id == 0 && r.placename == "" && r.timestamp == "" &&
    r.pm25 == -1 && !(r.status == "")

/-- The spec's description of the measurement selector, written directly from
its words: scan the list from most recent (last position) to least recent
(first position) and take the first valid measurement.  Structurally: prefer
whatever the tail (the more recent part) yields; fall back on the head only
when no later entry is valid. -/
def specMostRecentValid : List Measurement → Option Measurement
  | [] => none
  | m :: rest =>
      match specMostRecentValid rest with
      | some r => some r
      | none => if validMeasurement m then some m else none

/-! ## Helper lemmas -/

/-- A string with a non-empty left part stays non-empty under append. -/
theorem append_ne_empty (a b : String) (ha : a.length ≠ 0) : a ++ b ≠ "" := by
  intro h
  have hlen := congrArg String.length h
  rw [String.length_append] at hlen
  have h0 : ("" : String).length = 0 := rfl
  rw [h0] at hlen
  omega

/-- The length of an append is non-zero when the left part's is. -/
theorem left_append_length_ne_zero (a b : String) (ha : a.length ≠ 0) :
    (a ++ b).length ≠ 0 := by
  rw [String.length_append]
  omega

/-- On a collaborator response that `_geocode_one_placename` handles, the
resolver returns normally, with an `.ok` payload. -/
theorem handled_geocode_ok (p : String) (f : GeoFetch)
    (hf : handledGeoFetch f = true) :
    ∃ r, _geocode_one_placename p f = .ok r := by
  cases f with
  | httpError code => exact ⟨_, rfl⟩
  | ok results =>
      cases results with
      | nil => exact ⟨_, rfl⟩
      | cons r rest =>
          simp only [handledGeoFetch] at hf
          obtain ⟨pos, hpos⟩ := Option.isSome_iff_exists.mp hf
          exact ⟨⟨pos.lat, pos.lon, p, "ok"⟩,
            by simp [_geocode_one_placename, hpos]⟩

/-- When every response from position `i` on is handled, the batch helper
returns one `.ok` outcome per name, positionally. -/
theorem resolveBatchFrom_ok (resp : Nat → GeoFetch) :
    ∀ (names : List String) (i : Nat),
      (∀ j, j < names.length → handledGeoFetch (resp (i + j)) = true) →
      ∃ outs, resolveBatchFrom resp i names = .ok outs ∧
        outs.length = names.length ∧
        ∀ j, j < names.length →
          ∃ pj rj, names.get? j = some pj ∧ outs.get? j = some rj ∧
            _geocode_one_placename pj (resp (i + j)) = .ok rj := by
  intro names
  induction names with
  | nil =>
      intro i h
      exact ⟨[], rfl, rfl, fun j hj => absurd hj (by simp)⟩
  | cons p rest ih =>
      intro i h
      have h0 : handledGeoFetch (resp i) = true := by
        have := h 0 (by simp)
        simpa using this
      obtain ⟨r, hr⟩ := handled_geocode_ok p (resp i) h0
      obtain ⟨outs, houts, hlen, hget⟩ := ih (i + 1) (fun j hj => by
        have := h (j + 1) (by simpa using Nat.succ_lt_succ hj)
        rw [show i + 1 + j = i + (j + 1) by omega]
        exact this)
      refine ⟨r :: outs, ?_, by simpa using hlen, ?_⟩
      · simp [resolveBatchFrom, hr, houts]
      · intro j hj
        cases j with
        | zero => exact ⟨p, r, rfl, rfl, by simpa using hr⟩
        | succ k =>
            obtain ⟨pj, rj, h1, h2, h3⟩ :=
              hget k (by simpa using Nat.lt_of_succ_lt_succ hj)
            exact ⟨pj, rj, h1, h2, by
              rw [show i + (k + 1) = i + 1 + k by omega]
              exact h3⟩

/-- The selection loop appends to the accumulator the first
`3 - acc.length` readings the stations yield, in order. -/
theorem selectReadings_eq_take (fetch : Nat → Except Nat (List Measurement)) :
    ∀ (locs : List Location) (acc : List AirQualityResult), acc.length ≤ 3 →
      selectReadings fetch locs acc =
        acc ++ (locs.filterMap (extractReading fetch)).take (3 - acc.length) := by
  intro locs
  induction locs with
  | nil => intro acc h; simp [selectReadings]
  | cons loc rest ih =>
      intro acc h
      by_cases h3 : 3 ≤ acc.length
      · have hlen : acc.length = 3 := le_antisymm h h3
        simp [selectReadings, h3, hlen]
      · cases hx : extractReading fetch loc with
        | none =>
            simp only [selectReadings, if_neg h3, hx]
            rw [List.filterMap_cons_none hx]
            exact ih acc h
        | some r =>
            simp only [selectReadings, if_neg h3, hx]
            rw [List.filterMap_cons_some hx]
            have h1 : (acc ++ [r]).length ≤ 3 := by
              simp only [List.length_append, List.length_singleton]
              omega
            rw [ih (acc ++ [r]) h1]
            have h2 : 3 - acc.length = (3 - (acc ++ [r]).length) + 1 := by
              simp only [List.length_append, List.length_singleton]
              omega
            rw [h2, List.take_succ_cons]
            simp

/-- A station that yields no reading is transparent to the selection loop. -/
theorem selectReadings_skip (fetch : Nat → Except Nat (List Measurement))
    (loc : Location) (hx : extractReading fetch loc = none) :
    ∀ (l1 l2 : List Location) (acc : List AirQualityResult),
      selectReadings fetch (l1 ++ loc :: l2) acc =
        selectReadings fetch (l1 ++ l2) acc := by
  intro l1
  induction l1 with
  | nil =>
      intro l2 acc
      by_cases h3 : 3 ≤ acc.length
      · cases l2 with
        | nil => simp [selectReadings, h3]
        | cons b bs => simp [selectReadings, h3]
      · simp only [List.nil_append, selectReadings, if_neg h3, hx]
  | cons a l1x ih =>
      intro l2 acc
      simp only [List.cons_append, selectReadings]
      by_cases h3 : 3 ≤ acc.length
      · simp [h3]
      · simp only [if_neg h3]
        cases hxa : extractReading fetch a with
        | none => exact ih l2 acc
        | some r => exact ih l2 (acc ++ [r])

/-- The code's backwards scan agrees with the spec-side selector that
prefers the latest valid entry. -/
theorem last_valid_eq_spec (ms : List Measurement) :
    last_valid_measurement ms = specMostRecentValid ms := by
  induction ms with
  | nil => rfl
  | cons m rest ih =>
      simp only [last_valid_measurement, List.reverse_cons, List.find?_append,
        specMostRecentValid] at ih ⊢
      rw [ih]
      cases specMostRecentValid rest with
      | some r => rfl
      | none =>
          simp only [Option.or]
          cases hv : validMeasurement m <;> simp [List.find?, hv]

/-! ## Claims -/

/-- C1 counterexample: a station whose parsed last-updated instant is exactly
at the 8-hour cutoff (here: instant 0 with `now = 28800`, so
`eight_hours_ago = 0`) is NOT excluded by the freshness filter — it is kept
and ends up in the suitable-locations list, contradicting the claim that the
exact-cutoff station is excluded. -/
theorem c1_counterexample :
    freshnessKeep (fun s => if s = "t0" then some 0 else none) 28800
      ⟨"Station", some "t0", [⟨1, "pm25"⟩]⟩ = .ok true ∧
    suitable_locations (fun s => if s = "t0" then some 0 else none) 28800
      [⟨"Station", some "t0", [⟨1, "pm25"⟩]⟩] =
      .ok [⟨"Station", some "t0", [⟨1, "pm25"⟩]⟩] := by
  exact ⟨rfl, rfl⟩

/-- C1 (amended): in the freshness filter, a station strictly older than the
8-hour cutoff is excluded; a station exactly at the cutoff or strictly inside
the window is retained (exclusion requires a last-updated instant strictly
below `now - 8h`); a station missing its last-updated timestamp is dropped. -/
theorem c1_theorem (parseIso : String → Option Int) (now t : Int)
    (loc dropped : Location) (s : String)
    (hdt : loc.datetimeLast = some s) (hs : s ≠ "") (hp : parseIso s = some t)
    (hdrop : dropped.datetimeLast = none) :
    (t < now - eightHoursSecs → freshnessKeep parseIso now loc = .ok false) ∧
    (now - eightHoursSecs ≤ t → freshnessKeep parseIso now loc = .ok true) ∧
    freshnessKeep parseIso now dropped = .ok false := by
  refine ⟨fun hlt => ?_, fun hge => ?_, ?_⟩
  · simp [freshnessKeep, hdt, hs, hp, hlt]
  · simp [freshnessKeep, hdt, hs, hp, not_lt.mpr hge]
  · simp [freshnessKeep, hdrop]

/-- C1 witness: with `now = 28800` (cutoff 0), a station parsed to instant
-1 is excluded, a station parsed to instant 0 (exactly at the cutoff) is
retained, and a station with no timestamp is dropped. -/
theorem c1_witness :
    freshnessKeep (fun s => if s = "t1" then some (-1) else if s = "t2" then some 0 else none)
      28800 ⟨"A", some "t1", []⟩ = .ok false ∧
    freshnessKeep (fun s => if s = "t1" then some (-1) else if s = "t2" then some 0 else none)
      28800 ⟨"B", some "t2", []⟩ = .ok true ∧
    freshnessKeep (fun s => if s = "t1" then some (-1) else if s = "t2" then some 0 else none)
      28800 ⟨"C", none, []⟩ = .ok false :=
  ⟨(c1_theorem _ 28800 (-1) ⟨"A", some "t1", []⟩ ⟨"C", none, []⟩ "t1"
      rfl (by decide) (by decide) rfl).1 (by decide),
   (c1_theorem _ 28800 0 ⟨"B", some "t2", []⟩ ⟨"C", none, []⟩ "t2"
      rfl (by decide) (by decide) rfl).2.1 (by decide),
   (c1_theorem _ 28800 (-1) ⟨"A", some "t1", []⟩ ⟨"C", none, []⟩ "t1"
      rfl (by decide) (by decide) rfl).2.2⟩

/-- C2 counterexample: a geocode response whose first result lacks its
`position` key makes both `placename-to-latlon` and `placenames-to-latlons`
raise (the `try` in `_geocode_one_placename` catches only
`httpx.HTTPStatusError`), so their error branch is reachable and the claim
that all three public operations never propagate an exception is false. -/
theorem c2_counterexample :
    placename_to_latlon "Paris" (.ok [⟨none⟩]) = .error "KeyError: position" ∧
    placenames_to_latlons ["Paris"] (fun _ => .ok [⟨none⟩]) =
      .error "KeyError: position" := by
  exact ⟨rfl, rfl⟩

/-- C2 (amended): `getAirQuality` never propagates — every modelled exception
is converted at its outermost boundary to a single sentinel result
(`sensor_id 0`, empty placename/timestamp, `pm25 -1`, non-empty status) — and
the two geocode operations return normally on every response they handle
(upstream HTTP error, empty result set, or a first result carrying a
position), but an exception outside that set (such as a first result missing
its position) propagates to the caller. -/
theorem c2_theorem (p : String) (f : GeoFetch) (hf : handledGeoFetch f = true)
    (parseIso : String → Option Int) (now : Int)
    (shuffle : List Location → List Location)
    (fetch : Nat → Except Nat (List Measurement))
    (discovery : Except Nat (List Location)) :
    geocodeReturnsNormally p f = true ∧
    (get_air_quality_body parseIso now shuffle fetch discovery =
        .ok (get_air_quality parseIso now shuffle fetch discovery) ∨
      ((get_air_quality parseIso now shuffle fetch discovery).length = 1 ∧
        (get_air_quality parseIso now shuffle fetch discovery).all
          isSentinelShape = true)) := by
  constructor
  · obtain ⟨r, hr⟩ := handled_geocode_ok p f hf
    simp [geocodeReturnsNormally, hr]
  · cases hbody : get_air_quality_body parseIso now shuffle fetch discovery with
    | ok res => exact Or.inl (by simp [get_air_quality, hbody])
    | error err =>
        refine Or.inr ?_
        cases err with
        | http code =>
            have hne : ("API error: " ++ toString code) ≠ "" :=
              append_ne_empty _ _ (by decide)
            simp [get_air_quality, hbody, sentinelReading, isSentinelShape, hne]
        | unexpected msg =>
            have hne : ("An unexpected error occurred: " ++ msg) ≠ "" :=
              append_ne_empty _ _ (by decide)
            simp [get_air_quality, hbody, sentinelReading, isSentinelShape, hne]

/-- C2 witness: instantiated at a handled HTTP-error geocode response and a
failing discovery call. -/
theorem c2_witness :
    handledGeoFetch (.httpError 404) = true ∧
    (geocodeReturnsNormally "x" (.httpError 404) = true ∧
      (get_air_quality_body (fun _ => some 0) 0 id (fun _ => .ok [])
          (.error 503) =
          .ok (get_air_quality (fun _ => some 0) 0 id (fun _ => .ok [])
            (.error 503)) ∨
        ((get_air_quality (fun _ => some 0) 0 id (fun _ => .ok [])
            (.error 503)).length = 1 ∧
          (get_air_quality (fun _ => some 0) 0 id (fun _ => .ok [])
            (.error 503)).all isSentinelShape = true))) :=
  ⟨by decide, c2_theorem "x" (.httpError 404) (by decide)
    (fun _ => some 0) 0 id (fun _ => .ok []) (.error 503)⟩

/-- C6: the per-item resolver returns (0,0) with status
`"upstream error (status code=<code>)"` (non-empty, naming the upstream
status code) on an HTTP error; (0,0) with status exactly
`"error resolving placename"` when the provider returns no results; and the
first match's coordinate with status exactly `"ok"` on success. -/
theorem c6_theorem (p : String) (code : Nat) (r : GeoResult)
    (rest : List GeoResult) (pos : GeoPosition) (hpos : r.position = some pos) :
    _geocode_one_placename p (.httpError code) =
      .ok ⟨0, 0, p, "upstream error (status code=" ++ toString code ++ ")"⟩ ∧
    ("upstream error (status code=" ++ toString code ++ ")") ≠ "" ∧
    _geocode_one_placename p (.ok []) =
      .ok ⟨0, 0, p, "error resolving placename"⟩ ∧
    _geocode_one_placename p (.ok (r :: rest)) =
      .ok ⟨pos.lat, pos.lon, p, "ok"⟩ := by
  refine ⟨rfl,
    append_ne_empty _ _ (left_append_length_ne_zero _ _ (by decide)), rfl, ?_⟩
  simp [_geocode_one_placename, hpos]

/-- C6 witness: instantiated at `"Paris"`, status code 403, and a first
match at position (10, 20). -/
theorem c6_witness :
    _geocode_one_placename "Paris" (.httpError 403) =
      .ok ⟨0, 0, "Paris", "upstream error (status code=" ++ toString 403 ++ ")"⟩ ∧
    ("upstream error (status code=" ++ toString 403 ++ ")") ≠ "" ∧
    _geocode_one_placename "Paris" (.ok []) =
      .ok ⟨0, 0, "Paris", "error resolving placename"⟩ ∧
    _geocode_one_placename "Paris" (.ok [⟨some ⟨10, 20⟩⟩]) =
      .ok ⟨(10 : Int), (20 : Int), "Paris", "ok"⟩ :=
  c6_theorem "Paris" 403 ⟨some ⟨10, 20⟩⟩ [] ⟨10, 20⟩ rfl

/-- C9: on a singleton batch the batch tool produces exactly the single
tool's outcome (both delegate to `_geocode_one_placename`): the batch result
is the single result wrapped in a one-element list, and an uncaught
exception in one is an uncaught exception in the other. -/
theorem c9_theorem (p : String) (f : GeoFetch) :
    placenames_to_latlons [p] (fun _ => f) =
      Except.map (fun r => [r]) (placename_to_latlon p f) := by
  cases h : _geocode_one_placename p f with
  | error e =>
      simp [placenames_to_latlons, resolveBatchFrom, placename_to_latlon, h,
        Except.map]
  | ok r =>
      simp [placenames_to_latlons, resolveBatchFrom, placename_to_latlon, h,
        Except.map]

/-- C3: whenever every per-item lookup is one the resolver handles (success,
no-result, or upstream HTTP error), the batch tool returns exactly one
outcome per input name, positionally: the j-th outcome is the resolver's
outcome for the j-th name with the j-th response. -/
theorem c3_theorem (names : List String) (resp : Nat → GeoFetch)
    (h : (List.range names.length).all (fun j => handledGeoFetch (resp j)) = true) :
    ∃ outs, placenames_to_latlons names resp = .ok outs ∧
      outs.length = names.length ∧
      ∀ j, j < names.length →
        ∃ pj rj, names.get? j = some pj ∧ outs.get? j = some rj ∧
          _geocode_one_placename pj (resp j) = .ok rj := by
  have hh : ∀ j, j < names.length → handledGeoFetch (resp (0 + j)) = true := by
    intro j hj
    have := List.all_eq_true.mp h j (List.mem_range.mpr hj)
    simpa using this
  obtain ⟨outs, h1, h2, h3⟩ := resolveBatchFrom_ok resp names 0 hh
  refine ⟨outs, h1, h2, fun j hj => ?_⟩
  obtain ⟨pj, rj, ha, hb, hc⟩ := h3 j hj
  exact ⟨pj, rj, ha, hb, by simpa using hc⟩

/-- C3 witness: a 3-element batch (success, empty result set, success). -/
theorem c3_witness :
    (List.range (["Paris", "bad", "Tokyo"] : List String).length).all
      (fun j => handledGeoFetch
        (if j = 0 then GeoFetch.ok [⟨some ⟨1, 2⟩⟩]
          else if j = 1 then GeoFetch.ok [] else GeoFetch.ok [⟨some ⟨3, 4⟩⟩])) =
      true ∧
    (∃ outs, placenames_to_latlons ["Paris", "bad", "Tokyo"]
        (fun j => if j = 0 then GeoFetch.ok [⟨some ⟨1, 2⟩⟩]
          else if j = 1 then GeoFetch.ok [] else GeoFetch.ok [⟨some ⟨3, 4⟩⟩]) =
        .ok outs ∧
      outs.length = (["Paris", "bad", "Tokyo"] : List String).length ∧
      ∀ j, j < (["Paris", "bad", "Tokyo"] : List String).length →
        ∃ pj rj, (["Paris", "bad", "Tokyo"] : List String).get? j = some pj ∧
          outs.get? j = some rj ∧
          _geocode_one_placename pj
            (if j = 0 then GeoFetch.ok [⟨some ⟨1, 2⟩⟩]
              else if j = 1 then GeoFetch.ok [] else GeoFetch.ok [⟨some ⟨3, 4⟩⟩]) =
            .ok rj) :=
  ⟨by decide, c3_theorem ["Paris", "bad", "Tokyo"] _ (by decide)⟩

/-- C4: the selection loop returns exactly the first three readings the
shuffled stations yield (a station yielding none is passed over without
counting, and nothing is padded), and `getAirQuality` never returns more
than 3 elements on any input. -/
theorem c4_theorem (fetch : Nat → Except Nat (List Measurement))
    (locs : List Location) (parseIso : String → Option Int) (now : Int)
    (shuffle : List Location → List Location)
    (discovery : Except Nat (List Location)) :
    selectReadings fetch locs [] =
      (locs.filterMap (extractReading fetch)).take 3 ∧
    (get_air_quality parseIso now shuffle fetch discovery).length ≤ 3 := by
  have hsel : ∀ locs2 : List Location,
      selectReadings fetch locs2 [] =
        (locs2.filterMap (extractReading fetch)).take 3 := by
    intro locs2
    have := selectReadings_eq_take fetch locs2 [] (by simp)
    simpa using this
  refine ⟨hsel locs, ?_⟩
  have hlen : ∀ locs2 : List Location,
      (selectReadings fetch locs2 []).length ≤ 3 := by
    intro locs2
    rw [hsel locs2]
    exact List.length_take_le _ _
  cases discovery with
  | error code => simp [get_air_quality, get_air_quality_body]
  | ok results =>
      by_cases hres : results.isEmpty
      · simp [get_air_quality, get_air_quality_body, hres]
      · cases hsuit : suitable_locations parseIso now results with
        | error msg =>
            simp [get_air_quality, get_air_quality_body, hres, hsuit]
        | ok suitable =>
            by_cases hsu : suitable.isEmpty
            · simp [get_air_quality, get_air_quality_body, hres, hsuit, hsu]
            · simp only [get_air_quality, get_air_quality_body,
                Bool.not_eq_true] at hres hsu ⊢
              simp [hres, hsuit, hsu, hlen (shuffle suitable)]

/-- C5: the measurement selector agrees with the spec-side scan from most
recent (last position) to least recent, taking the first measurement with
both a value and a period-end timestamp (so a fully populated older entry
beats newer null-carrying ones); and when no measurement qualifies the
station is skipped. -/
theorem c5_theorem (ms ms2 : List Measurement)
    (fetch : Nat → Except Nat (List Measurement)) (loc : Location)
    (sensor : Sensor) (hsen : find_pm25_sensor loc = some sensor)
    (hfetch : fetch sensor.id = .ok ms)
    (hnone : last_valid_measurement ms = none) :
    last_valid_measurement ms2 = specMostRecentValid ms2 ∧
    extractReading fetch loc = none := by
  refine ⟨last_valid_eq_spec ms2, ?_⟩
  by_cases hemp : ms.isEmpty
  · simp [extractReading, hsen, hfetch, hemp]
  · simp [extractReading, hsen, hfetch, hemp, hnone]

/-- C5 witness: on a list whose two newest entries carry nulls, the selector
picks the older fully populated entry (`"mid"`), and a station whose only
measurement is invalid is skipped. -/
theorem c5_witness :
    last_valid_measurement
        [⟨some "old", some 1⟩, ⟨some "mid", some 2⟩, ⟨none, some 3⟩,
          ⟨some "new", none⟩] =
      specMostRecentValid
        [⟨some "old", some 1⟩, ⟨some "mid", some 2⟩, ⟨none, some 3⟩,
          ⟨some "new", none⟩] ∧
    last_valid_measurement
        [⟨some "old", some 1⟩, ⟨some "mid", some 2⟩, ⟨none, some 3⟩,
          ⟨some "new", none⟩] =
      some ⟨some "mid", some 2⟩ ∧
    extractReading (fun _ => .ok [⟨none, some 5⟩]) ⟨"S", none, [⟨7, "pm25"⟩]⟩ =
      none :=
  ⟨(c5_theorem [⟨none, some 5⟩]
      [⟨some "old", some 1⟩, ⟨some "mid", some 2⟩, ⟨none, some 3⟩,
        ⟨some "new", none⟩]
      (fun _ => .ok [⟨none, some 5⟩]) ⟨"S", none, [⟨7, "pm25"⟩]⟩ ⟨7, "pm25"⟩
      (by decide) rfl (by decide)).1,
   by decide,
   (c5_theorem [⟨none, some 5⟩]
      [⟨some "old", some 1⟩, ⟨some "mid", some 2⟩, ⟨none, some 3⟩,
        ⟨some "new", none⟩]
      (fun _ => .ok [⟨none, some 5⟩]) ⟨"S", none, [⟨7, "pm25"⟩]⟩ ⟨7, "pm25"⟩
      (by decide) rfl (by decide)).2⟩

/-- C7: `getAirQuality`'s stage outcomes — discovery HTTP error gives one
sentinel carrying the upstream code (sensor_id 0, pm25 -1); zero stations
gives one reading with the no-locations status; stations present but none
surviving the filter gives the empty sequence; and a per-sensor HTTP error
makes only that station transparent to the selection, never aborting it. -/
theorem c7_theorem (parseIso : String → Option Int) (now : Int)
    (shuffle : List Location → List Location)
    (fetch : Nat → Except Nat (List Measurement)) (code ecode : Nat)
    (results l1 l2 : List Location) (loc : Location) (sensor : Sensor)
    (acc : List AirQualityResult)
    (hres : results ≠ [])
    (hsuit : suitable_locations parseIso now results = .ok [])
    (hsen : find_pm25_sensor loc = some sensor)
    (hfetch : fetch sensor.id = .error ecode) :
    get_air_quality parseIso now shuffle fetch (.error code) =
      [sentinelReading ("API error: " ++ toString code)] ∧
    get_air_quality parseIso now shuffle fetch (.ok []) =
      [sentinelReading "Error. No locations found near coordinates."] ∧
    get_air_quality parseIso now shuffle fetch (.ok results) = [] ∧
    extractReading fetch loc = none ∧
    selectReadings fetch (l1 ++ loc :: l2) acc =
      selectReadings fetch (l1 ++ l2) acc := by
  have hx : extractReading fetch loc = none := by
    simp [extractReading, hsen, hfetch]
  refine ⟨rfl, rfl, ?_, hx, selectReadings_skip fetch loc hx l1 l2 acc⟩
  have hres2 : results.isEmpty = false := by
    cases results with
    | nil => exact absurd rfl hres
    | cons a l => rfl
  simp [get_air_quality, get_air_quality_body, hres2, hsuit]

/-- C7 witness: one stale station (discovery finds it, the filter drops it),
a 404 on discovery, and a station whose sensor fetch returns 500. -/
theorem c7_witness :
    get_air_quality (fun _ => some 0) 0 id (fun _ => .error 500) (.error 404) =
      [sentinelReading ("API error: " ++ toString 404)] ∧
    get_air_quality (fun _ => some 0) 0 id (fun _ => .error 500) (.ok []) =
      [sentinelReading "Error. No locations found near coordinates."] ∧
    get_air_quality (fun _ => some 0) 0 id (fun _ => .error 500)
      (.ok [⟨"Old", none, []⟩]) = [] ∧
    extractReading (fun _ => .error 500) ⟨"S", none, [⟨7, "pm25"⟩]⟩ = none ∧
    selectReadings (fun _ => .error 500)
        ([] ++ ⟨"S", none, [⟨7, "pm25"⟩]⟩ :: []) [] =
      selectReadings (fun _ => .error 500) ([] ++ []) [] :=
  c7_theorem (fun _ => some 0) 0 id (fun _ => .error 500) 404 500
    [⟨"Old", none, []⟩] [] [] ⟨"S", none, [⟨7, "pm25"⟩]⟩ ⟨7, "pm25"⟩ []
    (by decide) rfl (by decide) rfl

/-- C10: a discovery response whose single station carries a present,
non-empty but non-parsable last-updated string makes the whole call return
exactly one unexpected-error sentinel (sensor_id 0, pm25 -1): the malformed
timestamp raises past the per-station logic and is caught only at the
outermost boundary. -/
theorem c10_theorem (parseIso : String → Option Int) (now : Int)
    (shuffle : List Location → List Location)
    (fetch : Nat → Except Nat (List Measurement)) (nm s : String)
    (sensors : List Sensor) (hs : s ≠ "") (hp : parseIso s = none) :
    get_air_quality parseIso now shuffle fetch (.ok [⟨nm, some s, sensors⟩]) =
      [⟨0, "", "", -1,
        "An unexpected error occurred: " ++ ("Invalid isoformat string: " ++ s)⟩] := by
  simp [get_air_quality, get_air_quality_body, suitable_locations,
    freshnessKeep, hs, hp, sentinelReading]

/-- C10 witness: a station whose timestamp string is `"bogus"`. -/
theorem c10_witness :
    get_air_quality (fun _ => none) 0 id (fun _ => .ok [])
        (.ok [⟨"S", some "bogus", [⟨7, "pm25"⟩]⟩]) =
      [⟨0, "", "", -1,
        "An unexpected error occurred: " ++
          ("Invalid isoformat string: " ++ "bogus")⟩] :=
  c10_theorem (fun _ => none) 0 id (fun _ => .ok []) "S" "bogus"
    [⟨7, "pm25"⟩] (by decide) rfl

end AirQualityMCP
